import Mathlib

/-!
# Margin endpoints of the Binance client (`service_account_margin.go`)

A shallow embedding of the four margin operations `Borrow`, `Repay`,
`MarginAccount` and `MarginNewOrder`, followed by theorems about them.

* Go's `map[string]string` is an association list with unique keys.
* A call of an operation is a pure function of the collaborators it is
  given; it returns the Go return values together with the list of the
  collaborator calls it made, in order.
* `float64` is modelled by value (sign, mantissa, binary exponent), with
  NaN and the infinities; `strconv.FormatFloat` with a fixed precision is
  modelled exactly, by integer arithmetic. Its shortest rendering is a
  parameter of the operations; `shortestDecimal` is the model of it used on
  the samples.
-/

set_option maxRecDepth 20000

namespace Binance

/-! ## float64 and strconv -/

/-- A Go `float64`: NaN, an infinity, or the finite value
`(-1)^neg * mant * 2^exp`. -/
inductive float64 where
  | nan
  | inf (neg : Bool)
  | fin (neg : Bool) (mant : Nat) (exp : Int)
  deriving DecidableEq, Repr

namespace float64

/-- Go's `x != 0` on a float64: false for both zeros, true for NaN. -/
def neZero : float64 → Bool
  | fin _ m _ => m != 0
  | _ => true

/-- The positive zero, the zero value of a Go float64. -/
def zero : float64 := fin false 0 0

end float64

/-- The integer nearest to `a / b`, ties to the even one (`0 < b`). -/
def roundHalfEven (a b : Nat) : Nat :=
  let q := a / b
  let r := a % b
  if b < 2 * r then q + 1
  else if 2 * r = b ∧ q % 2 = 1 then q + 1
  else q

/-- Binary logarithm by repeated halving, `fuel` bounding the number of halvings. -/
def log2Aux : Nat → Nat → Nat
  | 0, _ => 0
  | fuel + 1, n => if n < 2 then 0 else log2Aux fuel (n / 2) + 1

/-- The largest `k` with `2^k ≤ n` (and `0` for `n = 0`). -/
def log2 (n : Nat) : Nat := log2Aux n n

/-- The value is one an IEEE-754 binary64 holds: a mantissa below `2^53`, an
exponent of at least `-1074`, a magnitude below `2^1024`. -/
def float64.isBinary64 : float64 → Bool
  | .fin _ m e => decide (m < 2 ^ 53) && decide (-1074 ≤ e) && (m == 0 || decide ((log2 m : Int) + e < 1024))
  | _ => true

/-- The largest `k` with `2^k ≤ a / b`, for `0 < a` and `0 < b`. -/
def floorLog2 (a b : Nat) : Int :=
  let d : Int := (log2 a : Int) - (log2 b : Int)
  if d ≥ 0 then
    if b * 2 ^ d.toNat ≤ a then d else d - 1
  else
    if b ≤ a * 2 ^ (-d).toNat then d else d - 1

/-- IEEE-754 round-to-nearest-even of the rational `a / b` (`0 < b`) into the
binary format with `p` mantissa bits, least exponent `emin` of a mantissa
unit, and magnitudes below `2^emax`; overflow gives an infinity. The result
is normalised: a mantissa of exactly `p` bits, or the exponent `emin`. -/
def roundBinary (p : Nat) (emin emax : Int) (neg : Bool) (a b : Nat) : float64 :=
  if a = 0 then .fin neg 0 emin
  else
    let q : Int := max (floorLog2 a b - ((p : Int) - 1)) emin
    let m : Nat := if q ≥ 0 then roundHalfEven a (b * 2 ^ q.toNat) else roundHalfEven (a * 2 ^ (-q).toNat) b
    let (m, q) := if m = 2 ^ p then (2 ^ (p - 1), q + 1) else (m, q)
    if (log2 m : Int) + q ≥ emax then .inf neg else .fin neg m q

/-- The float64 nearest to a finite value given by any mantissa and exponent,
in normalised form. -/
def float64.toBinary64 : float64 → float64
  | .fin neg m e =>
    if e ≥ 0 then roundBinary 53 (-1074) 1024 neg (m * 2 ^ e.toNat) 1
    else roundBinary 53 (-1074) 1024 neg m (2 ^ (-e).toNat)
  | f => f

/-- The conversion `float32(f)` of Go, seen again as a float64 value. -/
def float64.toFloat32 : float64 → float64
  | .fin neg m e =>
    if e ≥ 0 then roundBinary 24 (-149) 128 neg (m * 2 ^ e.toNat) 1
    else roundBinary 24 (-149) 128 neg m (2 ^ (-e).toNat)
  | f => f

/-- The decimal digits of `n`, left-padded with zeros to `width`. -/
def padDigits (width n : Nat) : String :=
  let s := Nat.repr n
  String.mk (List.replicate (width - s.length) '0') ++ s

/-- The `%f` rendering of the finite value `(-1)^neg * m * 2^e` with `prec`
digits after the point: the exact value rounded to `prec` fractional digits,
ties to even, as `strconv` does with its exact decimal conversion. -/
def formatFixed (neg : Bool) (m : Nat) (e : Int) (prec : Nat) : String :=
  let n : Nat := if e ≥ 0 then m * 2 ^ e.toNat * 10 ^ prec else roundHalfEven (m * 10 ^ prec) (2 ^ (-e).toNat)
  let sign := if neg then "-" else ""
  let intPart := Nat.repr (n / 10 ^ prec)
  if prec = 0 then sign ++ intPart
  else sign ++ intPart ++ "." ++ padDigits prec (n % 10 ^ prec)

/-- Go's `strconv.FormatFloat(f, 'f', prec, bitSize)`; the format is `'f'` at
every call site of this file. `shortest` is the rendering for `prec = -1`
(the fewest digits that read back as the same value), which is taken as a
parameter; `shortestDecimal` below is the model of it that the samples use.
With `bitSize = 32` the value is first converted to float32. -/
def FormatFloat (shortest : Nat → float64 → String) (f : float64) (prec : Int) (bitSize : Nat) : String :=
  let v := if bitSize = 32 then f.toFloat32 else f
  match v with
  | .nan => "NaN"
  | .inf false => "+Inf"
  | .inf true => "-Inf"
  | .fin neg m e => if prec < 0 then shortest bitSize v else formatFixed neg m e prec.toNat

/-- Go's `strconv.FormatInt(i, base)`; every call site uses base 10. -/
def FormatInt (i : Int) (base : Nat) : String :=
  if i < 0 then "-" ++ (Nat.toDigits base i.natAbs).asString
  else (Nat.toDigits base i.toNat).asString

/-- The least `j` from `j` on with `b ≤ a * 10^j`, within `fuel` steps. -/
def leastScale : Nat → Nat → Nat → Nat → Nat
  | 0, _, _, j => j
  | fuel + 1, a, b, j => if b ≤ a * 10 ^ j then j else leastScale fuel a b (j + 1)

/-- The largest `k` with `10^k ≤ a / b`, for `0 < a` and `0 < b`. -/
def floorLog10 (a b : Nat) : Int :=
  if b ≤ a then ((Nat.repr (a / b)).length : Int) - 1
  else -((leastScale 400 a b 1 : Nat) : Int)

/-- Whether two floats are the same value in the same form. -/
def sameFloat : float64 → float64 → Bool
  | .fin n1 m1 e1, .fin n2 m2 e2 => n1 == n2 && Nat.beq m1 m2 && decide (e1 = e2)
  | .nan, .nan => true
  | .inf n1, .inf n2 => n1 == n2
  | _, _ => false

/-- The multiple `c * 10^k` nearest to `a / b` among those that round to
`target` in the binary format, if there is one: `a / b` itself when it is such
a multiple, else the nearer of the two multiples around it that round to
`target` (ties to the even one), else the one that does. -/
def shortestAt (p : Nat) (emin emax : Int) (neg : Bool) (a b : Nat) (target : float64) (k : Int) :
    Option Nat :=
  let num := if k ≥ 0 then a else a * 10 ^ (-k).toNat
  let den := if k ≥ 0 then b * 10 ^ k.toNat else b
  let lo := num / den
  let r := num % den
  let reads (c : Nat) : Bool :=
    if k ≥ 0 then sameFloat (roundBinary p emin emax neg (c * 10 ^ k.toNat) 1) target
    else sameFloat (roundBinary p emin emax neg c (10 ^ (-k).toNat)) target
  let up : Bool := decide (den < 2 * r) || (decide (2 * r = den) && lo % 2 == 1)
  if r = 0 then some lo
  else if reads lo && reads (lo + 1) then some (if up then lo + 1 else lo)
  else if reads lo then some lo
  else if reads (lo + 1) then some (lo + 1)
  else none

/-- The search for the fewest digits: scale `k` is tried first, then `k - 1`,
and so on, for `fuel` scales; the last scale gives the nearest multiple. -/
def shortestSearch (p : Nat) (emin emax : Int) (neg : Bool) (a b : Nat) (target : float64) :
    Nat → Int → Nat × Int
  | 0, k => (if k ≥ 0 then roundHalfEven a (b * 10 ^ k.toNat) else roundHalfEven (a * 10 ^ (-k).toNat) b, k)
  | fuel + 1, k =>
    match shortestAt p emin emax neg a b target k with
    | some c => (c, k)
    | none => shortestSearch p emin emax neg a b target fuel (k - 1)

/-- The `%f` rendering of `(-1)^neg * c * 10^k` with as many digits after the
point as it has, none being a trailing zero. -/
def renderDecimal (neg : Bool) (c : Nat) (k : Int) : String :=
  let sign := if neg then "-" else ""
  if k ≥ 0 then sign ++ Nat.repr (c * 10 ^ k.toNat)
  else
    let w := (-k).toNat
    let s := (Nat.repr (c / 10 ^ w) ++ "." ++ padDigits w (c % 10 ^ w)).toList.reverse.dropWhile
      (fun ch => ch == '0')
    sign ++ String.mk (match s with
      | '.' :: r => r
      | r => r).reverse

/-- The rendering `strconv.FormatFloat(v, 'f', -1, bitSize)` of a finite value
of that bit size: the numeral of fewest significant digits that reads back as
`v` (the nearest to `v` when several do), as the documentation of `strconv`
describes it. -/
def shortestDecimal (bitSize : Nat) : float64 → String
  | .fin neg m e =>
    if m = 0 then (if neg then "-0" else "0")
    else
      let p := if bitSize = 32 then 24 else 53
      let emin : Int := if bitSize = 32 then -149 else -1074
      let emax : Int := if bitSize = 32 then 128 else 1024
      let a := if e ≥ 0 then m * 2 ^ e.toNat else m
      let b := if e ≥ 0 then 1 else 2 ^ (-e).toNat
      let target := roundBinary p emin emax neg a b
      let ck := shortestSearch p emin emax neg a b target 20 (floorLog10 a b)
      renderDecimal neg ck.1 ck.2
  | .nan => "NaN"
  | .inf false => "+Inf"
  | .inf true => "-Inf"

/-! ## Data model -/

/-- Go's `error` values that are not nil: the exchange's `{code, msg}` error,
any other error, and `errors.Wrap` of an error with a message. -/
inductive GoError where
  | api (code : Int) (msg : String)
  | other (msg : String)
  | wrapped (cause : GoError) (msg : String)
  deriving DecidableEq, Repr

/-- The function `errors.Wrap(err, msg)` of `github.com/pkg/errors`: nil for a
nil error, otherwise the error annotated with the message. -/
def Wrap (err : Option GoError) (msg : String) : Option GoError :=
  err.map (fun e => GoError.wrapped e msg)

/-- A `time.Time`, kept abstract: only the helpers of the package read it. -/
structure Time where
  unixNano : Int
  deriving DecidableEq, Repr

/-- A `time.Duration`, an int64. -/
abbrev Duration := Int

/-- The `map[string]string` of request parameters: an association list with
at most one entry per key. -/
abbrev Params := List (String × String)

/-- The statement `params[k] = v`. -/
def Params.set (p : Params) (k v : String) : Params :=
  (k, v) :: p.filter (fun kv => kv.1 != k)

/-- The lookup `params[k]`, `none` when the key is absent. -/
def Params.get (p : Params) (k : String) : Option String :=
  p.lookup k

structure BorrowRequest where
  Asset : String
  Amount : float64
  RecvWindow : Duration
  Timestamp : Time
  deriving DecidableEq, Repr

structure AccountRequest where
  RecvWindow : Duration
  Timestamp : Time
  deriving DecidableEq, Repr

/-- The order request; `Side`, `Type` and `TimeInForce` are string types in
the package, read here through their `string(...)` conversion. The field
`Type` is written `OrderType`, `Type` being reserved. -/
structure NewOrderRequest where
  Symbol : String
  Quantity : float64
  Price : float64
  Side : String
  TimeInForce : String
  OrderType : String
  Timestamp : Time
  NewClientOrderID : String
  StopPrice : float64
  IcebergQty : float64
  RecvWindow : Duration
  deriving DecidableEq, Repr

structure rawTransaction where
  TransactionId : Int
  deriving DecidableEq, Repr

structure UserAsset where
  Asset : String
  Borrowed : float64
  Free : float64
  Interest : float64
  Locked : float64
  NetAsset : float64
  deriving DecidableEq, Repr

structure MarginAccount where
  BorrowEnabled : Bool
  MarginLevel : float64
  TotalAssetOfBtc : float64
  TotalLiabilityOfBtc : float64
  TotalNetAssetOfBtc : float64
  TradeEnabled : Bool
  TransferEnabled : Bool
  UserAssets : List UserAsset
  deriving DecidableEq, Repr

/-- An element of `UserAssets` in the anonymous struct `rawAccount`. -/
structure rawUserAsset where
  Asset : String
  Borrowed : String
  Free : String
  Interest : String
  Locked : String
  NetAsset : String
  deriving DecidableEq, Repr

/-- The anonymous struct `rawAccount` that the account body is unmarshalled into. -/
structure rawAccount where
  BorrowEnabled : Bool
  MarginLevel : String
  TotalAssetOfBtc : String
  TotalLiabilityOfBtc : String
  TotalNetAssetOfBtc : String
  TradeEnabled : Bool
  TransferEnabled : Bool
  UserAssets : List rawUserAsset
  deriving DecidableEq, Repr

/-- The anonymous struct `rawOrder` that the order body is unmarshalled into. -/
structure rawOrder where
  Symbol : String
  OrderID : Int
  ClientOrderID : String
  TransactTime : float64
  deriving DecidableEq, Repr

structure ProcessedOrder where
  Symbol : String
  OrderID : Int
  ClientOrderID : String
  TransactTime : Time
  deriving DecidableEq, Repr

/-- An `*http.Response` as the operations use it: the status code, and what
`ioutil.ReadAll(res.Body)` gives, the bytes of the body or a read error. -/
structure Response where
  StatusCode : Int
  Body : Except GoError String

/-- The receiver `*apiService`, as far as this file uses it: the transport
`request(method, url, params, apiKey, sign)`, which gives a response or a
non-nil error, and `handleError(body)`, which gives an `error` (possibly nil). -/
structure apiService where
  request : String → String → Params → Bool → Bool → Except GoError Response
  handleError : String → Option GoError

/-- The package-level helpers and library functions the operations call and
this file does not define: `unixMillis`, `recvWindow`, `floatFromString`,
`timeFromUnixTimestampFloat`, `json.Unmarshal` at each of the three target
types, and the shortest rendering of `strconv.FormatFloat`. -/
structure Helpers where
  unixMillis : Time → Int
  recvWindow : Duration → Int
  floatFromString : String → Except GoError float64
  timeFromUnixTimestampFloat : float64 → Except GoError Time
  unmarshalTransaction : String → Except GoError rawTransaction
  unmarshalAccount : String → Except GoError rawAccount
  unmarshalOrder : String → Except GoError rawOrder
  shortest : Nat → float64 → String

/-- A call an operation makes on a collaborator. -/
inductive Call where
  | request (method path : String) (params : Params) (needsApiKey needsSignature : Bool)
  | readAll
  | handleError (body : String)
  | unmarshal (body : String)
  | close
  deriving DecidableEq, Repr

/-- What a call of an operation gives: the Go return values and the calls
made on the collaborators, in order. -/
structure Run (α : Type) where
  ret : α
  calls : List Call

/-! ## The operations -/

/-- The parameter map `Borrow` builds (lines 25-31). -/
def borrowParams (h : Helpers) (bor : BorrowRequest) : Params :=
  let params : Params := []
  let params := params.set "asset" bor.Asset
  let params := params.set "amount" (FormatFloat h.shortest bor.Amount (-1) 64)
  let params := if bor.RecvWindow ≠ 0 then params.set "recvWindow" (FormatInt (h.recvWindow bor.RecvWindow) 10) else params
  params.set "timestamp" (FormatInt (h.unixMillis bor.Timestamp) 10)

/-- The parameter map `Repay` builds (lines 74-80). -/
def repayParams (h : Helpers) (bor : BorrowRequest) : Params :=
  let params : Params := []
  let params := params.set "asset" bor.Asset
  let params := params.set "amount" (FormatFloat h.shortest bor.Amount (-1) 64)
  let params := if bor.RecvWindow ≠ 0 then params.set "recvWindow" (FormatInt (h.recvWindow bor.RecvWindow) 10) else params
  params.set "timestamp" (FormatInt (h.unixMillis bor.Timestamp) 10)

/-- The parameter map `MarginAccount` builds (lines 111-115). -/
def accountParams (h : Helpers) (ar : AccountRequest) : Params :=
  let params : Params := []
  let params := params.set "timestamp" (FormatInt (h.unixMillis ar.Timestamp) 10)
  if ar.RecvWindow ≠ 0 then params.set "recvWindow" (FormatInt (h.recvWindow ar.RecvWindow) 10) else params

/-- The parameter map `MarginNewOrder` builds (lines 234-257). -/
def newOrderParams (h : Helpers) (or : NewOrderRequest) : Params :=
  let params : Params := []
  let params := params.set "symbol" or.Symbol
  let params := params.set "side" or.Side
  let params := params.set "type" or.OrderType
  let params := params.set "quantity" (FormatFloat h.shortest or.Quantity 3 32)
  let params := if or.OrderType ≠ "MARKET" then params.set "price" (FormatFloat h.shortest or.Price 3 32) else params
  let params := params.set "timestamp" (FormatInt (h.unixMillis or.Timestamp) 10)
  let params := if or.NewClientOrderID ≠ "" then params.set "newClientOrderId" or.NewClientOrderID else params
  let params := if or.TimeInForce ≠ "" then params.set "timeInForce" or.TimeInForce else params
  let params := if or.StopPrice.neZero then params.set "stopPrice" (FormatFloat h.shortest or.StopPrice (-1) 64) else params
  let params := if or.IcebergQty.neZero then params.set "icebergQty" (FormatFloat h.shortest or.IcebergQty (-1) 64) else params
  if or.RecvWindow ≠ 0 then params.set "recvWindow" (FormatInt (h.recvWindow or.RecvWindow) 10) else params

/-- The method `Borrow` (lines 24-58): it has no return value. -/
def apiService.Borrow (as : apiService) (h : Helpers) (bor : BorrowRequest) : Run Unit :=
  let params := borrowParams h bor
  let req := Call.request "POST" "sapi/v1/margin/loan" params true true
  match as.request "POST" "sapi/v1/margin/loan" params true true with
  | .error _ => ⟨(), [req]⟩
  | .ok res =>
    match res.Body with
    | .error _ => ⟨(), [req, .readAll]⟩
    | .ok textRes =>
      if res.StatusCode ≠ 200 then ⟨(), [req, .readAll, .close]⟩
      else
        match h.unmarshalTransaction textRes with
        | .error _ => ⟨(), [req, .readAll, .unmarshal textRes, .close]⟩
        | .ok _ => ⟨(), [req, .readAll, .unmarshal textRes, .close]⟩

/-- The method `Repay` (lines 73-101): it has no return value. -/
def apiService.Repay (as : apiService) (h : Helpers) (bor : BorrowRequest) : Run Unit :=
  let params := repayParams h bor
  let req := Call.request "POST" "sapi/v1/margin/repay" params true true
  match as.request "POST" "sapi/v1/margin/repay" params true true with
  | .error _ => ⟨(), [req]⟩
  | .ok res =>
    match res.Body with
    | .error _ => ⟨(), [req, .readAll]⟩
    | .ok textRes =>
      if res.StatusCode ≠ 200 then ⟨(), [req, .readAll, .close]⟩
      else
        match h.unmarshalTransaction textRes with
        | .error _ => ⟨(), [req, .readAll, .unmarshal textRes, .close]⟩
        | .ok _ => ⟨(), [req, .readAll, .unmarshal textRes, .close]⟩

/-- The loop over `rawAccount.UserAssets` (lines 176-205): `acc` is
`acc.UserAssets` so far; the first decode error ends the loop. -/
def decodeUserAssets (h : Helpers) : List rawUserAsset → List UserAsset → Except GoError (List UserAsset)
  | [], acc => .ok acc
  | b :: rest, acc =>
    match h.floatFromString b.Free with
    | .error err => .error err
    | .ok f =>
      match h.floatFromString b.Locked with
      | .error err => .error err
      | .ok l =>
        match h.floatFromString b.Borrowed with
        | .error err => .error err
        | .ok bo =>
          match h.floatFromString b.Interest with
          | .error err => .error err
          | .ok i =>
            match h.floatFromString b.NetAsset with
            | .error err => .error err
            | .ok n =>
              decodeUserAssets h rest
                (acc ++ [{ Asset := b.Asset, Borrowed := bo, Free := f, Interest := i, Locked := l, NetAsset := n }])

/-- Lines 151-207 of `MarginAccount`: the decoding of the unmarshalled body,
with the two Go return values. -/
def decodeAccount (h : Helpers) (raw : rawAccount) : Option MarginAccount × Option GoError :=
  match h.floatFromString raw.MarginLevel with
  | .error err => (none, some err)
  | .ok ml =>
    match h.floatFromString raw.TotalAssetOfBtc with
    | .error err => (none, some err)
    | .ok tab =>
      match h.floatFromString raw.TotalLiabilityOfBtc with
      | .error err => (none, some err)
      | .ok tlb =>
        match h.floatFromString raw.TotalNetAssetOfBtc with
        | .error err => (none, some err)
        | .ok tnab =>
          match decodeUserAssets h raw.UserAssets [] with
          | .error err => (none, some err)
          | .ok assets =>
            (some { BorrowEnabled := raw.BorrowEnabled, MarginLevel := ml, TotalAssetOfBtc := tab,
                    TotalLiabilityOfBtc := tlb, TotalNetAssetOfBtc := tnab, TradeEnabled := raw.TradeEnabled,
                    TransferEnabled := raw.TransferEnabled, UserAssets := assets }, none)

/-- The method `MarginAccount` (lines 110-208). -/
def apiService.MarginAccount (as : apiService) (h : Helpers) (ar : AccountRequest) :
    Run (Option MarginAccount × Option GoError) :=
  let params := accountParams h ar
  let req := Call.request "GET" "/sapi/v1/margin/account" params true true
  match as.request "GET" "/sapi/v1/margin/account" params true true with
  | .error err => ⟨(none, some err), [req]⟩
  | .ok res =>
    match res.Body with
    | .error err => ⟨(none, Wrap (some err) "unable to read response from account.get"), [req, .readAll]⟩
    | .ok textRes =>
      if res.StatusCode ≠ 200 then
        ⟨(none, as.handleError textRes), [req, .readAll, .handleError textRes, .close]⟩
      else
        match h.unmarshalAccount textRes with
        | .error err =>
          ⟨(none, Wrap (some err) "rawAccount unmarshal failed"), [req, .readAll, .unmarshal textRes, .close]⟩
        | .ok raw => ⟨decodeAccount h raw, [req, .readAll, .unmarshal textRes, .close]⟩

/-- The method `MarginNewOrder` (lines 233-294). -/
def apiService.MarginNewOrder (as : apiService) (h : Helpers) (or : NewOrderRequest) :
    Run (Option ProcessedOrder × Option GoError) :=
  let params := newOrderParams h or
  let req := Call.request "POST" "sapi/v1/margin/order" params true true
  match as.request "POST" "sapi/v1/margin/order" params true true with
  | .error err => ⟨(none, some err), [req]⟩
  | .ok res =>
    match res.Body with
    | .error err => ⟨(none, Wrap (some err) "unable to read response from Ticker/24hr"), [req, .readAll]⟩
    | .ok textRes =>
      if res.StatusCode ≠ 200 then
        ⟨(none, as.handleError textRes), [req, .readAll, .handleError textRes, .close]⟩
      else
        match h.unmarshalOrder textRes with
        | .error err =>
          ⟨(none, Wrap (some err) "rawOrder unmarshal failed"), [req, .readAll, .unmarshal textRes, .close]⟩
        | .ok raw =>
          match h.timeFromUnixTimestampFloat raw.TransactTime with
          | .error err => ⟨(none, some err), [req, .readAll, .unmarshal textRes, .close]⟩
          | .ok t =>
            ⟨(some { Symbol := raw.Symbol, OrderID := raw.OrderID, ClientOrderID := raw.ClientOrderID,
                     TransactTime := t }, none), [req, .readAll, .unmarshal textRes, .close]⟩

/-- The `request` calls among the calls made. -/
def requestCalls (cs : List Call) : List Call :=
  cs.filter (fun c => match c with | .request _ _ _ _ _ => true | _ => false)

/-- The bodies `handleError` was applied to. -/
def handleErrorCalls (cs : List Call) : List String :=
  cs.filterMap (fun c => match c with | .handleError b => some b | _ => none)

/-- The bodies `json.Unmarshal` was applied to. -/
def unmarshalCalls (cs : List Call) : List String :=
  cs.filterMap (fun c => match c with | .unmarshal b => some b | _ => none)

/-! ## Predicates on an unmarshalled account -/

/-- Whether `floatFromString` succeeds on the string. -/
def Helpers.decodes (h : Helpers) (s : String) : Bool :=
  match h.floatFromString s with
  | .ok _ => true
  | .error _ => false

/-- Whether the five decimal strings of a user asset all decode. -/
def Helpers.assetDecodes (h : Helpers) (b : rawUserAsset) : Bool :=
  h.decodes b.Free && h.decodes b.Locked && h.decodes b.Borrowed && h.decodes b.Interest &&
    h.decodes b.NetAsset

/-- Whether every decimal string of the account body decodes: the four totals
and the five amounts of every user asset. -/
def Helpers.allDecode (h : Helpers) (raw : rawAccount) : Bool :=
  h.decodes raw.MarginLevel && h.decodes raw.TotalAssetOfBtc && h.decodes raw.TotalLiabilityOfBtc &&
    h.decodes raw.TotalNetAssetOfBtc && raw.UserAssets.all h.assetDecodes

/-- The user asset `u` is the decoding of the body's asset `b`, field by field. -/
def Helpers.decodesTo (h : Helpers) (b : rawUserAsset) (u : UserAsset) : Prop :=
  u.Asset = b.Asset ∧
  h.floatFromString b.Free = .ok u.Free ∧
  h.floatFromString b.Locked = .ok u.Locked ∧
  h.floatFromString b.Borrowed = .ok u.Borrowed ∧
  h.floatFromString b.Interest = .ok u.Interest ∧
  h.floatFromString b.NetAsset = .ok u.NetAsset

/-! ## Sample collaborators

Concrete collaborators and requests, used to evaluate the operations on
explicit inputs. -/

/-- The number a list of decimal digit characters denotes. -/
def digitsValue (cs : List Char) : Nat :=
  cs.foldl (fun n c => 10 * n + (c.toNat - 48)) 0

/-- Modelled from the spec: `floatFromString`, the decode of the Decimal Codec
(section 4.1), which is defined elsewhere in the package. It parses a decimal
literal (an optional sign, digits, an optional point followed by digits, at
least one digit in all) to the nearest float64 and fails with a
`MalformedNumber` error on any other string. -/
def decodeDecimal (s : String) : Except GoError float64 :=
  let cs := s.toList
  let (neg, cs) := match cs with
    | '-' :: r => (true, r)
    | '+' :: r => (false, r)
    | r => (false, r)
  let ip := cs.takeWhile Char.isDigit
  let fp : Option (List Char) := match cs.dropWhile Char.isDigit with
    | [] => some []
    | '.' :: r => if r.all Char.isDigit then some r else none
    | _ => none
  match fp with
  | none => .error (.other "MalformedNumber")
  | some fp =>
    if ip ++ fp = [] then .error (.other "MalformedNumber")
    else .ok (roundBinary 53 (-1074) 1024 neg (digitsValue (ip ++ fp)) (10 ^ fp.length))

/-- Modelled from the spec: `timeFromUnixTimestampFloat`, defined elsewhere in
the package (section 4.5): epoch milliseconds to an instant, exact at the
millisecond; a negative or non-finite value is an `InvalidTimestamp`. -/
def sampleTimeFromUnixTimestampFloat : float64 → Except GoError Time
  | .fin false m e =>
    .ok ⟨((if e ≥ 0 then m * 2 ^ e.toNat else m / 2 ^ (-e).toNat : Nat) : Int) * 1000000⟩
  | _ => .error (.other "InvalidTimestamp")

/-- The body of the account response of the spec's example. -/
def sampleAccountBody : String :=
  "\x7b\"borrowEnabled\":true,\"marginLevel\":\"1.5\",\"totalAssetOfBtc\":\"10.12345678\"," ++
  "\"totalLiabilityOfBtc\":\"0\",\"totalNetAssetOfBtc\":\"10.12345678\",\"tradeEnabled\":false," ++
  "\"transferEnabled\":true,\"userAssets\":[\x7b\"asset\":\"BTC\",\"borrowed\":\"0\",\"free\":\"0.5\"," ++
  "\"interest\":\"0\",\"locked\":\"0.1\",\"netAsset\":\"0.4\"\x7d]\x7d"

/-- What `json.Unmarshal` makes of `sampleAccountBody`. -/
def sampleRawAccount : rawAccount :=
  { BorrowEnabled := true, MarginLevel := "1.5", TotalAssetOfBtc := "10.12345678",
    TotalLiabilityOfBtc := "0", TotalNetAssetOfBtc := "10.12345678", TradeEnabled := false,
    TransferEnabled := true,
    UserAssets := [{ Asset := "BTC", Borrowed := "0", Free := "0.5", Interest := "0", Locked := "0.1",
                     NetAsset := "0.4" }] }

/-- An account body whose second asset has the malformed `locked` string `1,5`. -/
def sampleBadAccountBody : String :=
  "\x7b\"borrowEnabled\":true,\"marginLevel\":\"1.5\",\"totalAssetOfBtc\":\"10.12345678\"," ++
  "\"totalLiabilityOfBtc\":\"0\",\"totalNetAssetOfBtc\":\"10.12345678\",\"tradeEnabled\":false," ++
  "\"transferEnabled\":true,\"userAssets\":[\x7b\"asset\":\"BTC\",\"borrowed\":\"0\",\"free\":\"0.5\"," ++
  "\"interest\":\"0\",\"locked\":\"0.1\",\"netAsset\":\"0.4\"\x7d,\x7b\"asset\":\"ETH\"," ++
  "\"borrowed\":\"1\",\"free\":\"2\",\"interest\":\"0\",\"locked\":\"1,5\",\"netAsset\":\"1\"\x7d]\x7d"

/-- What `json.Unmarshal` makes of `sampleBadAccountBody`. -/
def sampleBadRawAccount : rawAccount :=
  { sampleRawAccount with
    UserAssets := [{ Asset := "BTC", Borrowed := "0", Free := "0.5", Interest := "0", Locked := "0.1",
                     NetAsset := "0.4" },
                   { Asset := "ETH", Borrowed := "1", Free := "2", Interest := "0", Locked := "1,5",
                     NetAsset := "1" }] }

/-- The body of an order response. -/
def sampleOrderBody : String :=
  "\x7b\"symbol\":\"BTCUSDT\",\"orderId\":28,\"clientOrderId\":\"abc\",\"transactTime\":1609459200123.0\x7d"

/-- What `json.Unmarshal` makes of `sampleOrderBody`. -/
def sampleRawOrder : rawOrder :=
  { Symbol := "BTCUSDT", OrderID := 28, ClientOrderID := "abc", TransactTime := .fin false 1609459200123 0 }

/-- The body of a loan response. -/
def sampleTransactionBody : String := "\x7b\"tranId\":100000001\x7d"

/-- The error body of the spec's example. -/
def sampleErrorBody : String := "\x7b\"code\":-1021,\"msg\":\"Timestamp outside recvWindow\"\x7d"

/-- Modelled from the spec: `unixMillis`, defined elsewhere in the package
(section 4.2, timestamps are sent as milliseconds since the epoch). -/
def sampleUnixMillis (t : Time) : Int := Int.tdiv t.unixNano 1000000

/-- Modelled from the spec: `recvWindow`, defined elsewhere in the package
(section 3, the receive window is sent in milliseconds); a `time.Duration`
counts nanoseconds. -/
def sampleRecvWindow (d : Duration) : Int := Int.tdiv d 1000000

/-- The body that is the empty JSON object. -/
def sampleEmptyObjectBody : String := "\x7b\x7d"

/-- The body that is the JSON value `null`. -/
def sampleNullBody : String := "null"

/-- A body that is not JSON. -/
def sampleHtmlBody : String := "<html>"

/-- The zero value of the struct `rawAccount`. -/
def zeroRawAccount : rawAccount :=
  { BorrowEnabled := false, MarginLevel := "", TotalAssetOfBtc := "", TotalLiabilityOfBtc := "",
    TotalNetAssetOfBtc := "", TradeEnabled := false, TransferEnabled := false, UserAssets := [] }

/-- The zero value of the struct `rawOrder`. -/
def zeroRawOrder : rawOrder :=
  { Symbol := "", OrderID := 0, ClientOrderID := "", TransactTime := float64.zero }

/-- Whether the sample `json.Unmarshal` leaves its target at the zero value
without an error: Go does so for an object that has none of the struct's
fields and for `null`. -/
def leavesZero (body : String) : Bool :=
  body == sampleEmptyObjectBody || body == sampleNullBody

/-- Sample helpers: the helpers of the package as modelled above, and
`json.Unmarshal` on the sample bodies only: the three well-formed bodies give
their structs, the empty object and `null` give the zero struct without an
error, and every other body (the samples use `sampleHtmlBody`) counts as a
syntax error. -/
def sampleHelpers : Helpers where
  unixMillis := sampleUnixMillis
  recvWindow := sampleRecvWindow
  floatFromString := decodeDecimal
  timeFromUnixTimestampFloat := sampleTimeFromUnixTimestampFloat
  unmarshalTransaction body :=
    if body = sampleTransactionBody then .ok ⟨100000001⟩
    else if leavesZero body then .ok ⟨0⟩
    else .error (.other "invalid character")
  unmarshalAccount body :=
    if body = sampleAccountBody then .ok sampleRawAccount
    else if body = sampleBadAccountBody then .ok sampleBadRawAccount
    else if leavesZero body then .ok zeroRawAccount
    else .error (.other "invalid character")
  unmarshalOrder body :=
    if body = sampleOrderBody then .ok sampleRawOrder
    else if leavesZero body then .ok zeroRawOrder
    else .error (.other "invalid character")
  shortest := shortestDecimal

/-- Modelled from the spec: `handleError`, defined elsewhere in the package
(section 4.5), on the sample bodies: the `code` and `msg` of the sample error
body, and a decode error for any other body. -/
def sampleHandleError (body : String) : Option GoError :=
  if body = sampleErrorBody then some (.api (-1021) "Timestamp outside recvWindow")
  else some (.wrapped (.other "invalid character") "error unmarshal failed")

/-- A service whose transport answers every request with the given status and body. -/
def sampleService (status : Int) (body : String) : apiService where
  request _ _ _ _ _ := .ok { StatusCode := status, Body := .ok body }
  handleError := sampleHandleError

/-- A service whose transport fails on every request. -/
def sampleDownService : apiService where
  request _ _ _ _ _ := .error (.other "connection refused")
  handleError := sampleHandleError

/-- A service whose transport answers the account endpoint with status 418
and the sample error body, and fails on every other request. -/
def sampleAccountOnlyService : apiService where
  request _ path _ _ _ :=
    if path = "/sapi/v1/margin/account" then .ok { StatusCode := 418, Body := .ok sampleErrorBody }
    else .error (.other "connection refused")
  handleError := sampleHandleError

/-- An account request with no receive window. -/
def sampleAccountRequest : AccountRequest :=
  { RecvWindow := 0, Timestamp := ⟨1609459200000000000⟩ }

/-- A loan request. -/
def sampleBorrowRequest : BorrowRequest :=
  { Asset := "BTC", Amount := .fin false 1 (-1), RecvWindow := 5000000000, Timestamp := ⟨1609459200000000000⟩ }

/-- A loan request with no asset and no amount. -/
def sampleEmptyBorrowRequest : BorrowRequest :=
  { Asset := "", Amount := float64.zero, RecvWindow := 0, Timestamp := ⟨1609459200000000000⟩ }

/-- A market order that nevertheless carries a price. -/
def sampleMarketOrder : NewOrderRequest :=
  { Symbol := "BTCUSDT", Quantity := .fin false 1 (-1), Price := .fin false 20000 0, Side := "BUY",
    TimeInForce := "", OrderType := "MARKET", Timestamp := ⟨1609459200000000000⟩, NewClientOrderID := "",
    StopPrice := float64.zero, IcebergQty := float64.zero, RecvWindow := 0 }

/-- A limit order at the price 20000.001, as the float64 nearest to it. -/
def sampleLimitOrder : NewOrderRequest :=
  { Symbol := "BTCUSDT", Quantity := .fin false 16777217 0, Price := .fin false 5497558413757907 (-38),
    Side := "BUY", TimeInForce := "GTC", OrderType := "LIMIT", Timestamp := ⟨1609459200000000000⟩,
    NewClientOrderID := "abc", StopPrice := float64.zero, IcebergQty := float64.zero,
    RecvWindow := 5000000000 }

/-- An order with no symbol, side, type or quantity. -/
def sampleEmptyOrder : NewOrderRequest :=
  { Symbol := "", Quantity := float64.zero, Price := float64.zero, Side := "", TimeInForce := "",
    OrderType := "", Timestamp := ⟨1609459200000000000⟩, NewClientOrderID := "",
    StopPrice := float64.zero, IcebergQty := float64.zero, RecvWindow := 0 }

/-! ## Rounding -/

theorem roundHalfEven_nearest (a b : Nat) (hb : 0 < b) :
    2 * (b * roundHalfEven a b) ≤ 2 * a + b ∧ 2 * a ≤ 2 * (b * roundHalfEven a b) + b := by
  have hd := Nat.div_add_mod a b
  have hr := Nat.mod_lt a hb
  unfold roundHalfEven
  simp only []
  generalize a / b = q at *
  generalize a % b = r at *
  have hbq : b * (q + 1) = b * q + b := by ring
  split
  · rw [hbq]; omega
  · split
    · rw [hbq]; omega
    · omega

theorem roundHalfEven_tie_even (a b : Nat) (ht : 2 * (a % b) = b) : roundHalfEven a b % 2 = 0 := by
  unfold roundHalfEven
  simp only []
  split
  · omega
  · split <;> omega

/-! ## Parameter maps -/

theorem Params.get_set_self (p : Params) (k v : String) : (p.set k v).get k = some v := by
  simp [Params.set, Params.get, List.lookup]

theorem Params.lookup_filter_ne (p : Params) (k k' : String) (hk : k' ≠ k) :
    List.lookup k' (p.filter (fun kv => kv.1 != k)) = List.lookup k' p := by
  induction p with
  | nil => rfl
  | cons kv rest ih =>
    obtain ⟨a, b⟩ := kv
    by_cases ha : a = k
    · subst ha
      have hb : (k' == a) = false := by simpa using hk
      simp [List.filter, List.lookup, hb, ih]
    · have h1 : (a != k) = true := by simpa using ha
      simp only [List.filter, h1, List.lookup, ih]

theorem Params.get_set_of_ne (p : Params) (k k' v : String) (hk : k' ≠ k) :
    (p.set k v).get k' = p.get k' := by
  have hb : (k' == k) = false := by simpa using hk
  simp [Params.set, Params.get, List.lookup, hb, Params.lookup_filter_ne p k k' hk]

theorem Params.get_ite (c : Prop) [Decidable c] (p q : Params) (k : String) :
    (if c then p else q).get k = if c then p.get k else q.get k := by
  split <;> rfl

theorem Params.get_nil (k : String) : Params.get [] k = none := rfl

/-! ## The request each operation sends -/

theorem Borrow_requestCalls (as : apiService) (h : Helpers) (bor : BorrowRequest) :
    requestCalls (as.Borrow h bor).calls
      = [Call.request "POST" "sapi/v1/margin/loan" (borrowParams h bor) true true] := by
  unfold apiService.Borrow
  simp only []
  split
  · rfl
  · split
    · rfl
    · split
      · rfl
      · split <;> rfl

theorem Repay_requestCalls (as : apiService) (h : Helpers) (bor : BorrowRequest) :
    requestCalls (as.Repay h bor).calls
      = [Call.request "POST" "sapi/v1/margin/repay" (repayParams h bor) true true] := by
  unfold apiService.Repay
  simp only []
  split
  · rfl
  · split
    · rfl
    · split
      · rfl
      · split <;> rfl

theorem MarginAccount_requestCalls (as : apiService) (h : Helpers) (ar : AccountRequest) :
    requestCalls (as.MarginAccount h ar).calls
      = [Call.request "GET" "/sapi/v1/margin/account" (accountParams h ar) true true] := by
  unfold apiService.MarginAccount
  simp only []
  split
  · rfl
  · split
    · rfl
    · split
      · rfl
      · split <;> rfl

theorem MarginNewOrder_requestCalls (as : apiService) (h : Helpers) (or : NewOrderRequest) :
    requestCalls (as.MarginNewOrder h or).calls
      = [Call.request "POST" "sapi/v1/margin/order" (newOrderParams h or) true true] := by
  unfold apiService.MarginNewOrder
  simp only []
  split
  · rfl
  · split
    · rfl
    · split
      · rfl
      · split
        · rfl
        · split <;> rfl

/-! ## C1: status classification -/

theorem MarginAccount_calls_of_response (as : apiService) (h : Helpers) (ar : AccountRequest)
    (res : Response) (body : String)
    (hr : as.request "GET" "/sapi/v1/margin/account" (accountParams h ar) true true = .ok res)
    (hb : res.Body = .ok body) :
    (as.MarginAccount h ar).calls
      = [Call.request "GET" "/sapi/v1/margin/account" (accountParams h ar) true true, Call.readAll,
         if res.StatusCode = 200 then Call.unmarshal body else Call.handleError body, Call.close] := by
  unfold apiService.MarginAccount
  simp only [hr, hb]
  by_cases hs : res.StatusCode = 200
  · simp only [hs, ne_eq, not_true_eq_false, if_false, if_true]
    split <;> rfl
  · simp only [hs, ne_eq, not_false_eq_true, if_false, if_true]

theorem MarginNewOrder_calls_of_response (as : apiService) (h : Helpers) (or : NewOrderRequest)
    (res : Response) (body : String)
    (hr : as.request "POST" "sapi/v1/margin/order" (newOrderParams h or) true true = .ok res)
    (hb : res.Body = .ok body) :
    (as.MarginNewOrder h or).calls
      = [Call.request "POST" "sapi/v1/margin/order" (newOrderParams h or) true true, Call.readAll,
         if res.StatusCode = 200 then Call.unmarshal body else Call.handleError body, Call.close] := by
  unfold apiService.MarginNewOrder
  simp only [hr, hb]
  by_cases hs : res.StatusCode = 200
  · simp only [hs, ne_eq, not_true_eq_false, if_false, if_true]
    split
    · rfl
    · split <;> rfl
  · simp only [hs, ne_eq, not_false_eq_true, if_false, if_true]

/-- C1. For `MarginAccount`, and separately for `MarginNewOrder`, on every
completed exchange of that operation (the transport gave a response and its
body was read): with a status other than 200 the call returns a nil result and
exactly `handleError` of the body read, `handleError` being applied once, to
that body, and nothing being unmarshalled; with status 200 `handleError` is not
applied and the body is unmarshalled. -/
theorem status_200_sole_success (as : apiService) (h : Helpers) :
    (∀ (ar : AccountRequest) (res : Response) (body : String),
      as.request "GET" "/sapi/v1/margin/account" (accountParams h ar) true true = .ok res →
      res.Body = .ok body →
      (res.StatusCode ≠ 200 → (as.MarginAccount h ar).ret = (none, as.handleError body)) ∧
      handleErrorCalls (as.MarginAccount h ar).calls = (if res.StatusCode = 200 then [] else [body]) ∧
      unmarshalCalls (as.MarginAccount h ar).calls = (if res.StatusCode = 200 then [body] else [])) ∧
    (∀ (or : NewOrderRequest) (res : Response) (body : String),
      as.request "POST" "sapi/v1/margin/order" (newOrderParams h or) true true = .ok res →
      res.Body = .ok body →
      (res.StatusCode ≠ 200 → (as.MarginNewOrder h or).ret = (none, as.handleError body)) ∧
      handleErrorCalls (as.MarginNewOrder h or).calls = (if res.StatusCode = 200 then [] else [body]) ∧
      unmarshalCalls (as.MarginNewOrder h or).calls = (if res.StatusCode = 200 then [body] else [])) := by
  constructor
  · intro ar res body hr hb
    rw [MarginAccount_calls_of_response as h ar res body hr hb]
    refine ⟨?_, ?_, ?_⟩
    · intro hs
      simp [apiService.MarginAccount, hr, hb, hs]
    · split <;> simp [handleErrorCalls]
    · split <;> simp [unmarshalCalls]
  · intro or res body hr hb
    rw [MarginNewOrder_calls_of_response as h or res body hr hb]
    refine ⟨?_, ?_, ?_⟩
    · intro hs
      simp [apiService.MarginNewOrder, hr, hb, hs]
    · split <;> simp [handleErrorCalls]
    · split <;> simp [unmarshalCalls]

/-- C1, on the spec's example: status 418 with the `-1021` body gives the
exchange's error, for each operation on its own; and on a service whose
transport is down for every other request, the account call alone still gives
it. -/
theorem status_200_sole_success_witness :
    ((sampleService 418 sampleErrorBody).request "GET" "/sapi/v1/margin/account"
        (accountParams sampleHelpers sampleAccountRequest) true true
      = .ok { StatusCode := 418, Body := .ok sampleErrorBody }) ∧
    ((418 : Int) ≠ 200) ∧
    ((sampleService 418 sampleErrorBody).MarginAccount sampleHelpers sampleAccountRequest).ret
      = (none, some (GoError.api (-1021) "Timestamp outside recvWindow")) ∧
    ((sampleService 418 sampleErrorBody).MarginNewOrder sampleHelpers sampleLimitOrder).ret
      = (none, some (GoError.api (-1021) "Timestamp outside recvWindow")) ∧
    (sampleAccountOnlyService.request "POST" "sapi/v1/margin/order"
        (newOrderParams sampleHelpers sampleLimitOrder) true true
      = .error (.other "connection refused")) ∧
    (sampleAccountOnlyService.MarginAccount sampleHelpers sampleAccountRequest).ret
      = (none, some (GoError.api (-1021) "Timestamp outside recvWindow")) :=
  have t := status_200_sole_success (sampleService 418 sampleErrorBody) sampleHelpers
  have u := status_200_sole_success sampleAccountOnlyService sampleHelpers
  ⟨rfl, by decide,
    (t.1 sampleAccountRequest { StatusCode := 418, Body := .ok sampleErrorBody } sampleErrorBody
      rfl rfl).1 (by decide),
    (t.2 sampleLimitOrder { StatusCode := 418, Body := .ok sampleErrorBody } sampleErrorBody
      rfl rfl).1 (by decide),
    rfl,
    (u.1 sampleAccountRequest { StatusCode := 418, Body := .ok sampleErrorBody } sampleErrorBody
      rfl rfl).1 (by decide)⟩

/-! ## C2, C3: the parameter map of a request -/

theorem mem_requestCalls (c : Call) (cs : List Call) (m path : String) (p : Params) (k sg : Bool)
    (hc : c = Call.request m path p k sg) (hmem : c ∈ cs) : c ∈ requestCalls cs := by
  subst hc
  simp [requestCalls, hmem]

theorem newOrderParams_quantity (h : Helpers) (or : NewOrderRequest) :
    (newOrderParams h or).get "quantity" = some (FormatFloat h.shortest or.Quantity 3 32) := by
  simp [newOrderParams, Params.get_set_of_ne, Params.get_set_self, Params.get_ite, Params.get_nil]

theorem newOrderParams_price (h : Helpers) (or : NewOrderRequest) :
    (newOrderParams h or).get "price"
      = if or.OrderType = "MARKET" then none else some (FormatFloat h.shortest or.Price 3 32) := by
  simp [newOrderParams, Params.get_set_of_ne, Params.get_set_self, Params.get_ite, Params.get_nil]

/-- C2. For a request whose type is `MARKET`, whatever its price, every
parameter map that `MarginNewOrder` passes to the transport's `request` has no
`price` key. -/
theorem market_order_omits_price (as : apiService) (h : Helpers) (or : NewOrderRequest)
    (hm : or.OrderType = "MARKET") (m path : String) (p : Params) (k sg : Bool)
    (hc : Call.request m path p k sg ∈ (as.MarginNewOrder h or).calls) :
    p.get "price" = none := by
  have hmem := mem_requestCalls _ _ m path p k sg rfl hc
  rw [MarginNewOrder_requestCalls] at hmem
  simp only [List.mem_singleton, Call.request.injEq] at hmem
  obtain ⟨-, -, hp, -, -⟩ := hmem
  subst hp
  simp [newOrderParams, hm, Params.get_set_of_ne, Params.get_ite, Params.get_nil]

/-- C2, on a market order that carries the price 20000. -/
theorem market_order_omits_price_witness :
    sampleMarketOrder.OrderType = "MARKET" ∧ sampleMarketOrder.Price = .fin false 20000 0 ∧
    Call.request "POST" "sapi/v1/margin/order" (newOrderParams sampleHelpers sampleMarketOrder) true true
      ∈ ((sampleService 200 sampleOrderBody).MarginNewOrder sampleHelpers sampleMarketOrder).calls ∧
    (newOrderParams sampleHelpers sampleMarketOrder).get "price" = none :=
  ⟨rfl, rfl, by decide,
    market_order_omits_price (sampleService 200 sampleOrderBody) sampleHelpers sampleMarketOrder rfl
      "POST" "sapi/v1/margin/order" _ true true (by decide)⟩

/-- C3. In the parameter map each of the four operations passes to the
transport, the key of an optional field (`recvWindow` everywhere;
`newClientOrderId`, `timeInForce`, `stopPrice`, `icebergQty` for an order) is
present exactly when the field differs from its zero value, and its value is
then the encoded field: the string itself, `FormatInt(recvWindow(RecvWindow), 10)`,
or `FormatFloat(x, 'f', -1, 64)`. -/
theorem optional_keys_iff_nonzero (as : apiService) (h : Helpers) (bor : BorrowRequest)
    (ar : AccountRequest) (or : NewOrderRequest) :
    (requestCalls (as.Borrow h bor).calls
        = [Call.request "POST" "sapi/v1/margin/loan" (borrowParams h bor) true true] ∧
      (borrowParams h bor).get "recvWindow"
        = if bor.RecvWindow ≠ 0 then some (FormatInt (h.recvWindow bor.RecvWindow) 10) else none) ∧
    (requestCalls (as.Repay h bor).calls
        = [Call.request "POST" "sapi/v1/margin/repay" (repayParams h bor) true true] ∧
      (repayParams h bor).get "recvWindow"
        = if bor.RecvWindow ≠ 0 then some (FormatInt (h.recvWindow bor.RecvWindow) 10) else none) ∧
    (requestCalls (as.MarginAccount h ar).calls
        = [Call.request "GET" "/sapi/v1/margin/account" (accountParams h ar) true true] ∧
      (accountParams h ar).get "recvWindow"
        = if ar.RecvWindow ≠ 0 then some (FormatInt (h.recvWindow ar.RecvWindow) 10) else none) ∧
    (requestCalls (as.MarginNewOrder h or).calls
        = [Call.request "POST" "sapi/v1/margin/order" (newOrderParams h or) true true] ∧
      (newOrderParams h or).get "recvWindow"
        = (if or.RecvWindow ≠ 0 then some (FormatInt (h.recvWindow or.RecvWindow) 10) else none) ∧
      (newOrderParams h or).get "newClientOrderId"
        = (if or.NewClientOrderID ≠ "" then some or.NewClientOrderID else none) ∧
      (newOrderParams h or).get "timeInForce"
        = (if or.TimeInForce ≠ "" then some or.TimeInForce else none) ∧
      (newOrderParams h or).get "stopPrice"
        = (if or.StopPrice.neZero then some (FormatFloat h.shortest or.StopPrice (-1) 64) else none) ∧
      (newOrderParams h or).get "icebergQty"
        = (if or.IcebergQty.neZero then some (FormatFloat h.shortest or.IcebergQty (-1) 64) else none)) := by
  refine ⟨⟨Borrow_requestCalls as h bor, ?_⟩, ⟨Repay_requestCalls as h bor, ?_⟩,
    ⟨MarginAccount_requestCalls as h ar, ?_⟩, ⟨MarginNewOrder_requestCalls as h or, ?_, ?_, ?_, ?_, ?_⟩⟩
  · simp [borrowParams, Params.get_set_of_ne, Params.get_set_self, Params.get_ite, Params.get_nil]
  · simp [repayParams, Params.get_set_of_ne, Params.get_set_self, Params.get_ite, Params.get_nil]
  · simp [accountParams, Params.get_set_of_ne, Params.get_set_self, Params.get_ite, Params.get_nil]
  · simp [newOrderParams, Params.get_set_of_ne, Params.get_set_self, Params.get_ite, Params.get_nil]
  · simp [newOrderParams, Params.get_set_of_ne, Params.get_set_self, Params.get_ite, Params.get_nil]
  · simp [newOrderParams, Params.get_set_of_ne, Params.get_set_self, Params.get_ite, Params.get_nil]
  · simp [newOrderParams, Params.get_set_of_ne, Params.get_set_self, Params.get_ite, Params.get_nil]
  · simp [newOrderParams, Params.get_set_of_ne, Params.get_set_self, Params.get_ite, Params.get_nil]

/-! ## C4, C5, C6: decoding the body of a 200 response -/

theorem Helpers.decodes_eq_true (h : Helpers) (s : String) (hd : h.decodes s = true) :
    ∃ v, h.floatFromString s = .ok v := by
  unfold Helpers.decodes at hd
  split at hd
  · exact ⟨_, by assumption⟩
  · exact absurd hd (by simp)

theorem Helpers.decodes_eq_false (h : Helpers) (s : String) (hd : h.decodes s = false) :
    ∃ e, h.floatFromString s = .error e := by
  unfold Helpers.decodes at hd
  split at hd
  · exact absurd hd (by simp)
  · exact ⟨_, by assumption⟩

theorem decodeUserAssets_ok (h : Helpers) (bs : List rawUserAsset) (acc : List UserAsset)
    (hall : bs.all h.assetDecodes = true) :
    ∃ us, decodeUserAssets h bs acc = .ok (acc ++ us) ∧ List.Forall₂ h.decodesTo bs us := by
  induction bs generalizing acc with
  | nil => exact ⟨[], by simp [decodeUserAssets]⟩
  | cons b rest ih =>
    simp only [List.all_cons, Bool.and_eq_true] at hall
    obtain ⟨hb, hrest⟩ := hall
    simp only [Helpers.assetDecodes, Bool.and_eq_true] at hb
    obtain ⟨⟨⟨⟨h1, h2⟩, h3⟩, h4⟩, h5⟩ := hb
    obtain ⟨f, hf⟩ := h.decodes_eq_true _ h1
    obtain ⟨l, hl⟩ := h.decodes_eq_true _ h2
    obtain ⟨bo, hbo⟩ := h.decodes_eq_true _ h3
    obtain ⟨i, hi⟩ := h.decodes_eq_true _ h4
    obtain ⟨n, hn⟩ := h.decodes_eq_true _ h5
    obtain ⟨us, hus, hfa⟩ := ih
      (acc ++ [{ Asset := b.Asset, Borrowed := bo, Free := f, Interest := i, Locked := l, NetAsset := n }])
      hrest
    refine ⟨{ Asset := b.Asset, Borrowed := bo, Free := f, Interest := i, Locked := l, NetAsset := n } :: us,
      ?_, ?_⟩
    · simp only [decodeUserAssets, hf, hl, hbo, hi, hn, hus, List.append_assoc, List.singleton_append]
    · exact List.Forall₂.cons ⟨rfl, hf, hl, hbo, hi, hn⟩ hfa

theorem decodeUserAssets_error (h : Helpers) (bs : List rawUserAsset) (acc : List UserAsset)
    (hall : bs.all h.assetDecodes = false) :
    ∃ e, decodeUserAssets h bs acc = .error e := by
  induction bs generalizing acc with
  | nil => simp at hall
  | cons b rest ih =>
    unfold decodeUserAssets
    split
    · exact ⟨_, rfl⟩
    · rename_i f hf
      split
      · exact ⟨_, rfl⟩
      · rename_i l hl
        split
        · exact ⟨_, rfl⟩
        · rename_i bo hbo
          split
          · exact ⟨_, rfl⟩
          · rename_i i hi
            split
            · exact ⟨_, rfl⟩
            · rename_i n hn
              apply ih
              simpa [Helpers.assetDecodes, Helpers.decodes, hf, hl, hbo, hi, hn] using hall

theorem MarginAccount_ret_of_unmarshalled (as : apiService) (h : Helpers) (ar : AccountRequest)
    (res : Response) (body : String) (raw : rawAccount)
    (hr : as.request "GET" "/sapi/v1/margin/account" (accountParams h ar) true true = .ok res)
    (hb : res.Body = .ok body) (hs : res.StatusCode = 200)
    (hu : h.unmarshalAccount body = .ok raw) :
    (as.MarginAccount h ar).ret = decodeAccount h raw := by
  simp [apiService.MarginAccount, hr, hb, hs, hu]

/-- C4. For a 200 response to `MarginAccount` whose body unmarshals and whose
decimal strings all decode, the call returns an account and a nil error; the
account has the three flags of the body, each of the four totals equal to
`floatFromString` of the like-named string, and as many user assets as the
body, in the same order, each with `Asset` copied and `Free`, `Locked`,
`Borrowed`, `Interest`, `NetAsset` equal to `floatFromString` of the
like-named string of the body's asset at the same position. -/
theorem account_decoded_fieldwise (as : apiService) (h : Helpers) (ar : AccountRequest)
    (res : Response) (body : String) (raw : rawAccount)
    (hr : as.request "GET" "/sapi/v1/margin/account" (accountParams h ar) true true = .ok res)
    (hb : res.Body = .ok body) (hs : res.StatusCode = 200)
    (hu : h.unmarshalAccount body = .ok raw) (hall : h.allDecode raw = true) :
    ∃ acc : MarginAccount, (as.MarginAccount h ar).ret = (some acc, none) ∧
      acc.BorrowEnabled = raw.BorrowEnabled ∧ acc.TradeEnabled = raw.TradeEnabled ∧
      acc.TransferEnabled = raw.TransferEnabled ∧
      h.floatFromString raw.MarginLevel = .ok acc.MarginLevel ∧
      h.floatFromString raw.TotalAssetOfBtc = .ok acc.TotalAssetOfBtc ∧
      h.floatFromString raw.TotalLiabilityOfBtc = .ok acc.TotalLiabilityOfBtc ∧
      h.floatFromString raw.TotalNetAssetOfBtc = .ok acc.TotalNetAssetOfBtc ∧
      acc.UserAssets.length = raw.UserAssets.length ∧
      List.Forall₂ h.decodesTo raw.UserAssets acc.UserAssets := by
  rw [MarginAccount_ret_of_unmarshalled as h ar res body raw hr hb hs hu]
  simp only [Helpers.allDecode, Bool.and_eq_true] at hall
  obtain ⟨⟨⟨⟨h1, h2⟩, h3⟩, h4⟩, h5⟩ := hall
  obtain ⟨ml, hml⟩ := h.decodes_eq_true _ h1
  obtain ⟨tab, htab⟩ := h.decodes_eq_true _ h2
  obtain ⟨tlb, htlb⟩ := h.decodes_eq_true _ h3
  obtain ⟨tnab, htnab⟩ := h.decodes_eq_true _ h4
  obtain ⟨us, hus, hfa⟩ := decodeUserAssets_ok h raw.UserAssets [] h5
  refine ⟨{ BorrowEnabled := raw.BorrowEnabled, MarginLevel := ml, TotalAssetOfBtc := tab,
            TotalLiabilityOfBtc := tlb, TotalNetAssetOfBtc := tnab, TradeEnabled := raw.TradeEnabled,
            TransferEnabled := raw.TransferEnabled, UserAssets := us }, ?_, rfl, rfl, rfl, hml, htab, htlb,
          htnab, hfa.length_eq.symm, hfa⟩
  simp only [decodeAccount, hml, htab, htlb, htnab, hus, List.nil_append]

/-- C5. For a 200 response to `MarginAccount` whose body unmarshals, if any
decimal string of the body (one of the four totals, or one of the five amounts
of a user asset at any position) fails `floatFromString`, the call returns a
nil account and a non-nil error. -/
theorem account_decode_failure_surfaces (as : apiService) (h : Helpers) (ar : AccountRequest)
    (res : Response) (body : String) (raw : rawAccount)
    (hr : as.request "GET" "/sapi/v1/margin/account" (accountParams h ar) true true = .ok res)
    (hb : res.Body = .ok body) (hs : res.StatusCode = 200)
    (hu : h.unmarshalAccount body = .ok raw) (hbad : h.allDecode raw = false) :
    ∃ e : GoError, (as.MarginAccount h ar).ret = (none, some e) := by
  rw [MarginAccount_ret_of_unmarshalled as h ar res body raw hr hb hs hu]
  unfold decodeAccount
  split
  · exact ⟨_, rfl⟩
  · rename_i ml hml
    split
    · exact ⟨_, rfl⟩
    · rename_i tab htab
      split
      · exact ⟨_, rfl⟩
      · rename_i tlb htlb
        split
        · exact ⟨_, rfl⟩
        · rename_i tnab htnab
          have h5 : raw.UserAssets.all h.assetDecodes = false := by
            simpa [Helpers.allDecode, Helpers.decodes, hml, htab, htlb, htnab] using hbad
          obtain ⟨e, he⟩ := decodeUserAssets_error h raw.UserAssets [] h5
          exact ⟨e, by simp only [he]⟩

/-- C6 as stated fails: `json.Unmarshal` accepts the bodies `{}` and `null`,
which do not have the expected shape, and leaves `rawOrder` at its zero value;
`MarginNewOrder` then returns a zero-valued `ProcessedOrder` and a nil error.
On the same bodies `MarginAccount` returns nil and the error of
`floatFromString` on the empty string. -/
theorem shapeless_body_gives_zero_order_counterexample :
    sampleHelpers.unmarshalOrder sampleEmptyObjectBody = .ok zeroRawOrder ∧
    sampleHelpers.timeFromUnixTimestampFloat zeroRawOrder.TransactTime = .ok ⟨0⟩ ∧
    ((sampleService 200 sampleEmptyObjectBody).MarginNewOrder sampleHelpers sampleLimitOrder).ret
      = (some { Symbol := "", OrderID := 0, ClientOrderID := "", TransactTime := ⟨0⟩ }, none) ∧
    ((sampleService 200 sampleNullBody).MarginNewOrder sampleHelpers sampleLimitOrder).ret
      = (some { Symbol := "", OrderID := 0, ClientOrderID := "", TransactTime := ⟨0⟩ }, none) ∧
    ((sampleService 200 sampleEmptyObjectBody).MarginAccount sampleHelpers sampleAccountRequest).ret
      = (none, some (GoError.other "MalformedNumber")) := by
  refine ⟨rfl, rfl, ?_, ?_, ?_⟩ <;> decide

/-- C6, amended. For `MarginAccount`, and separately for `MarginNewOrder`, on
every 200 response whose body `json.Unmarshal` rejects with an error, the call
returns a nil result and that error wrapped with the operation's message,
which is not nil. A body that `json.Unmarshal` accepts is decoded whatever
fields it lacks: `MarginNewOrder` returns the processed order made of the
unmarshalled struct, with a nil error, whenever `timeFromUnixTimestampFloat`
accepts its `TransactTime`. -/
theorem rejected_body_is_decode_error (as : apiService) (h : Helpers) :
    (∀ (ar : AccountRequest) (res : Response) (body : String) (e : GoError),
      as.request "GET" "/sapi/v1/margin/account" (accountParams h ar) true true = .ok res →
      res.Body = .ok body → res.StatusCode = 200 → h.unmarshalAccount body = .error e →
      (as.MarginAccount h ar).ret = (none, some (GoError.wrapped e "rawAccount unmarshal failed"))) ∧
    (∀ (or : NewOrderRequest) (res : Response) (body : String) (e : GoError),
      as.request "POST" "sapi/v1/margin/order" (newOrderParams h or) true true = .ok res →
      res.Body = .ok body → res.StatusCode = 200 → h.unmarshalOrder body = .error e →
      (as.MarginNewOrder h or).ret = (none, some (GoError.wrapped e "rawOrder unmarshal failed"))) ∧
    (∀ (or : NewOrderRequest) (res : Response) (body : String) (raw : rawOrder) (t : Time),
      as.request "POST" "sapi/v1/margin/order" (newOrderParams h or) true true = .ok res →
      res.Body = .ok body → res.StatusCode = 200 → h.unmarshalOrder body = .ok raw →
      h.timeFromUnixTimestampFloat raw.TransactTime = .ok t →
      (as.MarginNewOrder h or).ret
        = (some { Symbol := raw.Symbol, OrderID := raw.OrderID, ClientOrderID := raw.ClientOrderID,
                  TransactTime := t }, none)) := by
  refine ⟨?_, ?_, ?_⟩
  · intro ar res body e hr hb hs hu
    simp [apiService.MarginAccount, hr, hb, hs, hu, Wrap]
  · intro or res body e hr hb hs hu
    simp [apiService.MarginNewOrder, hr, hb, hs, hu, Wrap]
  · intro or res body raw t hr hb hs hu ht
    simp [apiService.MarginNewOrder, hr, hb, hs, hu, ht]

/-- C4, on the spec's example body: the account decodes, `MarginLevel` is the
float64 of 1.5 and the `Free` of its one asset the float64 of 0.5. -/
theorem account_decoded_fieldwise_witness :
    sampleHelpers.unmarshalAccount sampleAccountBody = .ok sampleRawAccount ∧
    sampleHelpers.allDecode sampleRawAccount = true ∧
    (∃ acc : MarginAccount,
      ((sampleService 200 sampleAccountBody).MarginAccount sampleHelpers sampleAccountRequest).ret
        = (some acc, none) ∧
      acc.BorrowEnabled = true ∧ acc.TradeEnabled = false ∧ acc.TransferEnabled = true ∧
      decodeDecimal "1.5" = .ok acc.MarginLevel ∧
      decodeDecimal "10.12345678" = .ok acc.TotalAssetOfBtc ∧
      decodeDecimal "0" = .ok acc.TotalLiabilityOfBtc ∧
      decodeDecimal "10.12345678" = .ok acc.TotalNetAssetOfBtc ∧
      acc.UserAssets.length = 1 ∧
      List.Forall₂ sampleHelpers.decodesTo sampleRawAccount.UserAssets acc.UserAssets) ∧
    (((sampleService 200 sampleAccountBody).MarginAccount sampleHelpers sampleAccountRequest).ret.1.map
        (fun acc => (acc.MarginLevel, acc.UserAssets.map (fun u => (u.Asset, u.Free))))
      = some (float64.toBinary64 (.fin false 3 (-1)), [("BTC", float64.toBinary64 (.fin false 1 (-1)))])) ∧
    decodeDecimal "1.5" = .ok (float64.fin false 6755399441055744 (-52)) ∧
    decodeDecimal "0.5" = .ok (float64.fin false 4503599627370496 (-53)) :=
  ⟨rfl, by decide,
    account_decoded_fieldwise (sampleService 200 sampleAccountBody) sampleHelpers sampleAccountRequest
      { StatusCode := 200, Body := .ok sampleAccountBody } sampleAccountBody sampleRawAccount
      rfl rfl rfl rfl (by decide),
    by decide, rfl, rfl⟩

/-- C5, on an account body whose second asset has the `locked` string `1,5`. -/
theorem account_decode_failure_surfaces_witness :
    sampleHelpers.unmarshalAccount sampleBadAccountBody = .ok sampleBadRawAccount ∧
    sampleHelpers.allDecode sampleBadRawAccount = false ∧
    (∃ e : GoError,
      ((sampleService 200 sampleBadAccountBody).MarginAccount sampleHelpers sampleAccountRequest).ret
        = (none, some e)) :=
  ⟨rfl, by decide,
    account_decode_failure_surfaces (sampleService 200 sampleBadAccountBody) sampleHelpers
      sampleAccountRequest { StatusCode := 200, Body := .ok sampleBadAccountBody } sampleBadAccountBody
      sampleBadRawAccount rfl rfl rfl rfl (by decide)⟩

/-- C6 amended, on a 200 response with an HTML body, for each operation on
its own, and on the sample order body. -/
theorem rejected_body_is_decode_error_witness :
    sampleHelpers.unmarshalAccount sampleHtmlBody = .error (.other "invalid character") ∧
    sampleHelpers.unmarshalOrder sampleHtmlBody = .error (.other "invalid character") ∧
    ((sampleService 200 sampleHtmlBody).MarginAccount sampleHelpers sampleAccountRequest).ret
      = (none, some (GoError.wrapped (.other "invalid character") "rawAccount unmarshal failed")) ∧
    ((sampleService 200 sampleHtmlBody).MarginNewOrder sampleHelpers sampleLimitOrder).ret
      = (none, some (GoError.wrapped (.other "invalid character") "rawOrder unmarshal failed")) ∧
    ((sampleService 200 sampleOrderBody).MarginNewOrder sampleHelpers sampleLimitOrder).ret
      = (some { Symbol := "BTCUSDT", OrderID := 28, ClientOrderID := "abc",
                TransactTime := ⟨1609459200123000000⟩ }, none) :=
  have t := rejected_body_is_decode_error (sampleService 200 sampleHtmlBody) sampleHelpers
  have u := rejected_body_is_decode_error (sampleService 200 sampleOrderBody) sampleHelpers
  ⟨rfl, rfl,
    t.1 sampleAccountRequest { StatusCode := 200, Body := .ok sampleHtmlBody } sampleHtmlBody
      (.other "invalid character") rfl rfl rfl rfl,
    t.2.1 sampleLimitOrder { StatusCode := 200, Body := .ok sampleHtmlBody } sampleHtmlBody
      (.other "invalid character") rfl rfl rfl rfl,
    u.2.2 sampleLimitOrder { StatusCode := 200, Body := .ok sampleOrderBody } sampleOrderBody
      sampleRawOrder ⟨1609459200123000000⟩ rfl rfl rfl rfl rfl⟩

/-! ## C7: mandatory fields -/

/-- C7 as stated fails: a loan request with no asset and no amount, and an
order with no symbol, side, type or quantity, are sent to the transport, and
the order call returns a processed order and a nil error. -/
theorem mandatory_fields_unchecked_counterexample :
    sampleEmptyBorrowRequest.Asset = "" ∧ sampleEmptyBorrowRequest.Amount.neZero = false ∧
    requestCalls ((sampleService 200 sampleTransactionBody).Borrow sampleHelpers sampleEmptyBorrowRequest).calls
      = [Call.request "POST" "sapi/v1/margin/loan"
          [("timestamp", "1609459200000"), ("amount", "0"), ("asset", "")] true true] ∧
    requestCalls ((sampleService 200 sampleTransactionBody).Repay sampleHelpers sampleEmptyBorrowRequest).calls
      = [Call.request "POST" "sapi/v1/margin/repay"
          [("timestamp", "1609459200000"), ("amount", "0"), ("asset", "")] true true] ∧
    sampleEmptyOrder.Symbol = "" ∧ sampleEmptyOrder.Side = "" ∧ sampleEmptyOrder.OrderType = "" ∧
    sampleEmptyOrder.Quantity.neZero = false ∧
    requestCalls ((sampleService 200 sampleOrderBody).MarginNewOrder sampleHelpers sampleEmptyOrder).calls
      = [Call.request "POST" "sapi/v1/margin/order"
          [("timestamp", "1609459200000"), ("price", "0.000"), ("quantity", "0.000"), ("type", ""),
           ("side", ""), ("symbol", "")] true true] ∧
    ((sampleService 200 sampleOrderBody).MarginNewOrder sampleHelpers sampleEmptyOrder).ret
      = (some { Symbol := "BTCUSDT", OrderID := 28, ClientOrderID := "abc",
                TransactTime := ⟨1609459200123000000⟩ }, none) := by
  refine ⟨rfl, rfl, ?_, ?_, rfl, rfl, rfl, rfl, ?_, ?_⟩ <;> decide

/-- C7, amended. No operation checks the mandatory fields: for every request,
whether or not a mandatory field is empty or zero, `Borrow`, `Repay` and
`MarginNewOrder` invoke the transport's `request` exactly once, and the
mandatory keys are in the parameter map passed, with the encoded field as
value: `asset`, `symbol`, `side` and `type` verbatim (the empty string when the
field is empty), `amount` and `quantity` as `FormatFloat` renders them. The
result is then the response's: on a 200 response whose body decodes,
`MarginNewOrder` returns the processed order and a nil error. -/
theorem mandatory_fields_sent_unchecked (as : apiService) (h : Helpers) (bor : BorrowRequest)
    (or : NewOrderRequest) :
    (requestCalls (as.Borrow h bor).calls
        = [Call.request "POST" "sapi/v1/margin/loan" (borrowParams h bor) true true] ∧
      (borrowParams h bor).get "asset" = some bor.Asset ∧
      (borrowParams h bor).get "amount" = some (FormatFloat h.shortest bor.Amount (-1) 64)) ∧
    (requestCalls (as.Repay h bor).calls
        = [Call.request "POST" "sapi/v1/margin/repay" (repayParams h bor) true true] ∧
      (repayParams h bor).get "asset" = some bor.Asset ∧
      (repayParams h bor).get "amount" = some (FormatFloat h.shortest bor.Amount (-1) 64)) ∧
    (requestCalls (as.MarginNewOrder h or).calls
        = [Call.request "POST" "sapi/v1/margin/order" (newOrderParams h or) true true] ∧
      (newOrderParams h or).get "symbol" = some or.Symbol ∧
      (newOrderParams h or).get "side" = some or.Side ∧
      (newOrderParams h or).get "type" = some or.OrderType ∧
      (newOrderParams h or).get "quantity" = some (FormatFloat h.shortest or.Quantity 3 32)) ∧
    (∀ (res : Response) (body : String) (raw : rawOrder) (t : Time),
      as.request "POST" "sapi/v1/margin/order" (newOrderParams h or) true true = .ok res →
      res.Body = .ok body → res.StatusCode = 200 → h.unmarshalOrder body = .ok raw →
      h.timeFromUnixTimestampFloat raw.TransactTime = .ok t →
      (as.MarginNewOrder h or).ret
        = (some { Symbol := raw.Symbol, OrderID := raw.OrderID, ClientOrderID := raw.ClientOrderID,
                  TransactTime := t }, none)) := by
  refine ⟨⟨Borrow_requestCalls as h bor, ?_, ?_⟩, ⟨Repay_requestCalls as h bor, ?_, ?_⟩,
    ⟨MarginNewOrder_requestCalls as h or, ?_, ?_, ?_, ?_⟩, ?_⟩
  · simp [borrowParams, Params.get_set_of_ne, Params.get_set_self, Params.get_ite, Params.get_nil]
  · simp [borrowParams, Params.get_set_of_ne, Params.get_set_self, Params.get_ite, Params.get_nil]
  · simp [repayParams, Params.get_set_of_ne, Params.get_set_self, Params.get_ite, Params.get_nil]
  · simp [repayParams, Params.get_set_of_ne, Params.get_set_self, Params.get_ite, Params.get_nil]
  · simp [newOrderParams, Params.get_set_of_ne, Params.get_set_self, Params.get_ite, Params.get_nil]
  · simp [newOrderParams, Params.get_set_of_ne, Params.get_set_self, Params.get_ite, Params.get_nil]
  · simp [newOrderParams, Params.get_set_of_ne, Params.get_set_self, Params.get_ite, Params.get_nil]
  · simp [newOrderParams, Params.get_set_of_ne, Params.get_set_self, Params.get_ite, Params.get_nil]
  · intro res body raw t hr hb hs hu ht
    simp [apiService.MarginNewOrder, hr, hb, hs, hu, ht]

/-- C7 amended, on the order with no symbol, side, type or quantity: the
transport is asked, and its 200 answer is returned as a processed order. -/
theorem mandatory_fields_sent_unchecked_witness :
    sampleEmptyOrder.Symbol = "" ∧ sampleEmptyOrder.Quantity.neZero = false ∧
    (newOrderParams sampleHelpers sampleEmptyOrder).get "symbol" = some "" ∧
    (newOrderParams sampleHelpers sampleEmptyOrder).get "quantity" = some "0.000" ∧
    ((sampleService 200 sampleOrderBody).MarginNewOrder sampleHelpers sampleEmptyOrder).ret
      = (some { Symbol := "BTCUSDT", OrderID := 28, ClientOrderID := "abc",
                TransactTime := ⟨1609459200123000000⟩ }, none) :=
  have t := mandatory_fields_sent_unchecked (sampleService 200 sampleOrderBody) sampleHelpers
    sampleEmptyBorrowRequest sampleEmptyOrder
  ⟨rfl, rfl, t.2.2.1.2.1, t.2.2.1.2.2.2.2,
    t.2.2.2 { StatusCode := 200, Body := .ok sampleOrderBody } sampleOrderBody sampleRawOrder
      ⟨1609459200123000000⟩ rfl rfl rfl rfl rfl⟩

/-! ## C8: what the caller of `Borrow` and `Repay` sees -/

/-- C8 fails on the code. `Borrow` and `Repay` return nothing: whatever the
transport answers, the caller sees the same result, and `handleError` is never
applied. On the samples, a transport that is down, a 418 rejection and an
unreadable 200 body each stop the call at a different point, all with the
result of the successful call. -/
theorem borrow_repay_failures_dropped (as as' : apiService) (h : Helpers) (bor : BorrowRequest) :
    (as.Borrow h bor).ret = (as'.Borrow h bor).ret ∧
    (as.Repay h bor).ret = (as'.Repay h bor).ret ∧
    handleErrorCalls (as.Borrow h bor).calls = [] ∧
    handleErrorCalls (as.Repay h bor).calls = [] ∧
    (sampleDownService.Borrow sampleHelpers sampleBorrowRequest).calls.length = 1 ∧
    ((sampleService 418 sampleErrorBody).Borrow sampleHelpers sampleBorrowRequest).calls.length = 3 ∧
    unmarshalCalls ((sampleService 200 "<html>").Borrow sampleHelpers sampleBorrowRequest).calls
      = ["<html>"] ∧
    sampleHelpers.unmarshalTransaction "<html>" = .error (.other "invalid character") ∧
    unmarshalCalls ((sampleService 200 sampleTransactionBody).Borrow sampleHelpers sampleBorrowRequest).calls
      = [sampleTransactionBody] ∧
    sampleHelpers.unmarshalTransaction sampleTransactionBody = .ok ⟨100000001⟩ := by
  refine ⟨rfl, rfl, ?_, ?_, by decide, by decide, by decide, rfl, by decide, rfl⟩
  · unfold apiService.Borrow
    simp only []
    split
    · rfl
    · split
      · rfl
      · split
        · rfl
        · split <;> rfl
  · unfold apiService.Repay
    simp only []
    split
    · rfl
    · split
      · rfl
      · split
        · rfl
        · split <;> rfl

/-! ## C9: method, path and flags -/

/-- C9 fails on the code in the form of the path. Each operation invokes
`request` exactly once, with both flags true and with the method of its
endpoint; the path has a leading slash for `MarginAccount` only, and none for
`Borrow`, `Repay` and `MarginNewOrder`. -/
theorem request_once_with_paths (as : apiService) (h : Helpers) (bor : BorrowRequest)
    (ar : AccountRequest) (or : NewOrderRequest) :
    requestCalls (as.Borrow h bor).calls
      = [Call.request "POST" "sapi/v1/margin/loan" (borrowParams h bor) true true] ∧
    requestCalls (as.Repay h bor).calls
      = [Call.request "POST" "sapi/v1/margin/repay" (repayParams h bor) true true] ∧
    requestCalls (as.MarginAccount h ar).calls
      = [Call.request "GET" "/sapi/v1/margin/account" (accountParams h ar) true true] ∧
    requestCalls (as.MarginNewOrder h or).calls
      = [Call.request "POST" "sapi/v1/margin/order" (newOrderParams h or) true true] ∧
    requestCalls (as.Borrow h bor).calls
      ≠ [Call.request "POST" "/sapi/v1/margin/loan" (borrowParams h bor) true true] ∧
    requestCalls (as.Repay h bor).calls
      ≠ [Call.request "POST" "/sapi/v1/margin/repay" (repayParams h bor) true true] ∧
    requestCalls (as.MarginNewOrder h or).calls
      ≠ [Call.request "POST" "/sapi/v1/margin/order" (newOrderParams h or) true true] := by
  rw [Borrow_requestCalls, Repay_requestCalls, MarginAccount_requestCalls, MarginNewOrder_requestCalls]
  simp

/-! ## C10: the rendering of quantity and price -/

/-- Known renderings of `strconv.FormatFloat(x, 'f', -1, bitSize)`: 0.1, 0.5,
the sum 0.1 + 0.2, a third, `10^23`, `2^63`, an integer below `2^53`, the
float64 nearest to 20000.001, both zeros, and the float32 nearest to 0.1. -/
theorem shortestDecimal_known_values :
    shortestDecimal 64 (.fin false 7205759403792794 (-56)) = "0.1" ∧
    shortestDecimal 64 (.fin false 1 (-1)) = "0.5" ∧
    shortestDecimal 64 (.fin false 5404319552844596 (-54)) = "0.30000000000000004" ∧
    shortestDecimal 64 (.fin false 6004799503160661 (-54)) = "0.3333333333333333" ∧
    shortestDecimal 64 (.fin false 5960464477539062 24) = "100000000000000000000000" ∧
    shortestDecimal 64 (.fin false 1 63) = "9223372036854776000" ∧
    shortestDecimal 64 (.fin false 16777217 0) = "16777217" ∧
    shortestDecimal 64 (.fin false 5497558413757907 (-38)) = "20000.001" ∧
    shortestDecimal 64 (.fin false 0 0) = "0" ∧
    shortestDecimal 64 (.fin true 0 0) = "-0" ∧
    shortestDecimal 32 (.fin false 13421773 (-27)) = "0.1" := by
  refine ⟨?_, ?_, ?_, ?_, ?_, ?_, ?_, ?_, ?_, ?_, ?_⟩ <;> decide

/-- Known renderings of `strconv.FormatFloat(x, 'f', prec, bitSize)`: 0.5 at
three digits, the ties 2.5 and 3.5 at no digit (to the even neighbour), 0.1 as
a float64 at twenty digits, a negative zero, and the float32 nearest to 0.1
seen at ten digits. -/
theorem FormatFloat_known_values (shortest : Nat → float64 → String) :
    FormatFloat shortest (.fin false 1 (-1)) 3 64 = "0.500" ∧
    FormatFloat shortest (.fin false 5 (-1)) 0 64 = "2" ∧
    FormatFloat shortest (.fin false 7 (-1)) 0 64 = "4" ∧
    FormatFloat shortest (.fin false 7205759403792794 (-56)) 20 64 = "0.10000000000000000555" ∧
    FormatFloat shortest (.fin true 0 0) 3 32 = "-0.000" ∧
    FormatFloat shortest (.fin false 7205759403792794 (-56)) 10 32 = "0.1000000015" ∧
    FormatFloat shortest .nan 3 32 = "NaN" :=
  ⟨rfl, rfl, rfl, rfl, rfl, rfl, rfl⟩


/-- C10 fails on the code. `quantity` and `price` are rendered with bit size
32: the float64 is first rounded to a float32. The quantity 16777217 goes on
the wire as `16777216.000`, and the price 20000.001 (the float64 nearest to
it) as `20000.002`; with bit size 64, as `amount`, `stopPrice` and
`icebergQty` are rendered, they would be `16777217.000` and `20000.001`. -/
theorem quantity_price_rounded_through_float32 (as : apiService) (h : Helpers) :
    sampleLimitOrder.Quantity = .fin false 16777217 0 ∧
    decodeDecimal "20000.001" = .ok sampleLimitOrder.Price ∧
    sampleLimitOrder.Quantity.isBinary64 = true ∧ sampleLimitOrder.Price.isBinary64 = true ∧
    requestCalls (as.MarginNewOrder h sampleLimitOrder).calls
      = [Call.request "POST" "sapi/v1/margin/order" (newOrderParams h sampleLimitOrder) true true] ∧
    (newOrderParams h sampleLimitOrder).get "quantity" = some "16777216.000" ∧
    (newOrderParams h sampleLimitOrder).get "price" = some "20000.002" ∧
    FormatFloat h.shortest sampleLimitOrder.Quantity 3 64 = "16777217.000" ∧
    FormatFloat h.shortest sampleLimitOrder.Price 3 64 = "20000.001" := by
  refine ⟨rfl, rfl, by decide, by decide, MarginNewOrder_requestCalls as h _, ?_, ?_, rfl, rfl⟩
  · rw [newOrderParams_quantity]
    rfl
  · rw [newOrderParams_price]
    rfl

end Binance
